import Mathlib

/-!
Verification of the compose-email browser skill.

The skill consists of an entry point `compose_email` and an inner field-fill
sequencer `do_compose_email`.  Both are embedded shallowly: every awaited
browser or environment interaction becomes an `Action` appended to a trace,
and an abstract environment `Env` decides the page state and which
interactions raise.  A computation is a pair of an `Except` result and the
list of actions it performed, composed by `mbind` (sequencing, aborting on a
raised exception while keeping the actions already performed) and `mtry`
(the `try`/`except` construct of the source).
-/

namespace ComposeEmail

/-- Severity levels of the user-notification channel used by the skill. -/
inductive MessageType
  | ACTION
  | ERROR
  deriving DecidableEq

/-- One observable interaction of the skill: browser UI operations,
environment-variable reads, screenshots and user notifications. -/
inductive Action
  | takeScreenshot (label : String)
  | goto (url : String)
  | checkSignInVisible
  | readEnv (name : String)
  | clickSignIn
  | fillEmailField (value : String)
  | clickNext
  | waitForPasswordSelector
  | clickPasswordField
  | fillPasswordField (value : String)
  | pressEnterPassword
  | waitForUrl (url : String)
  | clickCompose
  | waitForNewMessage
  | typeText (text : String)
  | pressKey (key : String)
  | notifyUser (message : String) (mt : MessageType)
  deriving DecidableEq

/-- Exceptions of the embedded code: Playwright timeout errors versus every
other Python exception (including the `ValueError`s the skill itself raises). -/
inductive Exn
  | timeout (msg : String)
  | generic (msg : String)
  deriving DecidableEq

/-- The text `str(e)` of an exception: its message. -/
def exnStr : Exn → String
  | Exn.timeout m => m
  | Exn.generic m => m

/-- The abstract world one invocation runs against: whether an active page
exists, its current URL, whether the sign-in affordance is visible, the
`EMAIL`/`PASSWORD` environment variables, which interaction (if any) raises
which exception, and the traceback text produced when a generic failure is
formatted. -/
structure Env where
  hasActivePage : Bool
  pageUrl : String
  signInVisible : Bool
  emailVar : Option String
  passwordVar : Option String
  fail : Action → Option Exn
  tracebackText : String

/-- The result dictionary of the field-fill sequencer:
`summary_message` and `detailed_message`. -/
structure OperationOutcome where
  summary_message : String
  detailed_message : String
  deriving DecidableEq

/-- A computation: an `Except` result together with the trace of actions it
performed (a writer monad with exceptions). -/
def M (α : Type) : Type := Except Exn α × List Action

/-- Return a value, performing no action. -/
def mpure {α : Type} (a : α) : M α := (Except.ok a, [])

/-- Raise an exception, performing no action. -/
def mthrow {α : Type} (e : Exn) : M α := (Except.error e, [])

/-- Sequence two computations; an exception aborts the continuation but the
actions already performed remain in the trace. -/
def mbind {α β : Type} (x : M α) (f : α → M β) : M β :=
  match x with
  | (Except.ok a, tr) => ((f a).1, tr ++ (f a).2)
  | (Except.error e, tr) => (Except.error e, tr)

/-- The `try`/`except` construct: on an exception the handler runs after the
actions already performed. -/
def mtry {α : Type} (x : M α) (h : Exn → M α) : M α :=
  match x with
  | (Except.ok a, tr) => (Except.ok a, tr)
  | (Except.error e, tr) => ((h e).1, tr ++ (h e).2)

/-- Sequence a unit-valued computation before another computation. -/
def andThen {α : Type} (x : M Unit) (y : M α) : M α := mbind x (fun _ => y)

/-- Perform an interaction that cannot raise (environment reads, the
user notification). -/
def recordAction (a : Action) : M Unit := (Except.ok (), [a])

/-- Perform an awaited interaction: it is recorded in the trace, and raises
whatever exception the environment injects for it. -/
def step (env : Env) (a : Action) : M Unit :=
  match env.fail a with
  | none => (Except.ok (), [a])
  | some e => (Except.error e, [a])

/-- Python truthiness of an optional environment variable: `None` and the
empty string are falsy. -/
def pyTruthy : Option String → Bool
  | none => false
  | some s => !(s == "")

/-- The string an optional environment variable denotes when used. -/
def optStr : Option String → String
  | none => ""
  | some s => s

/-- Whether one character list begins with another. -/
def startsWith : List Char → List Char → Bool
  | [], _ => true
  | _ :: _, [] => false
  | a :: as, b :: bs => a == b && startsWith as bs

/-- Whether a character list occurs contiguously inside another. -/
def occursIn (needle : List Char) : List Char → Bool
  | [] => startsWith needle []
  | c :: rest => startsWith needle (c :: rest) || occursIn needle rest

/-- The Python construct `needle in hay` on strings: contiguous substring occurrence. -/
def pyIn (needle hay : String) : Bool := occursIn needle.data hay.data

/-- Message of the precondition failure when no active page exists. -/
def noActivePageMsg : String :=
  "Error: No active page found. OpenURL command opens a new page."

/-- Message of the configuration failure when a credential is unset. -/
def credsMissingMsg : String :=
  "EMAIL or PASSWORD environment variables are not set."

/-- The target application URL the skill navigates to. -/
def gmailUrl : String := "https://mail.google.com/"

/-- The authenticated landing URL waited for after sign-in. -/
def inboxUrl : String := "https://mail.google.com/mail/u/0/"

/-- The success summary of the sequencer, interpolating the recipient. -/
def successMsg (recipient : String) : String :=
  "Email composed successfully for " ++ recipient ++ "."

/-- The failure summary of the sequencer, interpolating the recipient. -/
def errorSummary (recipient : String) : String :=
  "Error composing email for " ++ recipient ++ "."

/-- The wrapping that the entry point applies to a Playwright timeout error. -/
def timeoutWrap (m : String) : String :=
  "Timeout error: " ++ m ++ ". The page might be loading slowly or the element might not be present."

/-- The wrapping that the entry point applies to a generic failure, with traceback text. -/
def genericWrap (m tb : String) : String :=
  "Failed to compose email. Error: " ++ m ++ "\n" ++ tb

/-- The outcome the sequencer returns when a fill step raised `e`. -/
def failureOutcome (recipient : String) (e : Exn) : OperationOutcome :=
  OperationOutcome.mk (errorSummary recipient)
    (errorSummary recipient ++ " Error: " ++ exnStr e)

/-- The outcome the sequencer returns when every fill step succeeded. -/
def successOutcome (recipient subject body : String) : OperationOutcome :=
  OperationOutcome.mk (successMsg recipient)
    (successMsg recipient ++ " Subject: \x27" ++ subject ++ "\x27, Body: \x27" ++
      body.take 50 ++ "...\x27")

/-- The body of the `try` block of `do_compose_email`: type the recipient, press
Tab, type the subject, press Tab, type the body, then build the success
dictionary. -/
def fillBody (env : Env) (recipient subject body : String) : M OperationOutcome :=
  andThen (step env (Action.typeText recipient)) (
  andThen (step env (Action.pressKey "Tab")) (
  andThen (step env (Action.typeText subject)) (
  andThen (step env (Action.pressKey "Tab")) (
  andThen (step env (Action.typeText body)) (
  mpure (successOutcome recipient subject body))))))

/-- The field-fill sequencer: the fill steps under an exception handler that
converts any raised exception into an error outcome naming the recipient. -/
def do_compose_email (env : Env) (recipient subject body : String) : M OperationOutcome :=
  mtry (fillBody env recipient subject body)
    (fun e => mpure (failureOutcome recipient e))

/-- The outcome value the sequencer produces (its result never being an
exception, this is total). -/
def outcomeOf (env : Env) (recipient subject body : String) : OperationOutcome :=
  match (fillBody env recipient subject body).1 with
  | Except.ok o => o
  | Except.error e => failureOutcome recipient e

/-- The authentication branch: read both credentials, raise a configuration
error if either is falsy, otherwise drive the sign-in sequence. -/
def authSeq (env : Env) : M Unit :=
  andThen (recordAction (Action.readEnv "EMAIL")) (
  andThen (recordAction (Action.readEnv "PASSWORD")) (
  if !pyTruthy env.emailVar || !pyTruthy env.passwordVar then
    mthrow (Exn.generic credsMissingMsg)
  else
    andThen (step env Action.clickSignIn) (
    andThen (step env (Action.fillEmailField (optStr env.emailVar))) (
    andThen (step env Action.clickNext) (
    andThen (step env Action.waitForPasswordSelector) (
    andThen (step env Action.clickPasswordField) (
    andThen (step env (Action.fillPasswordField (optStr env.passwordVar))) (
    andThen (step env Action.pressEnterPassword) (
    step env (Action.waitForUrl inboxUrl))))))))))

/-- The body of the `try` block of `compose_email`: start screenshot, conditional
navigation, sign-in detection and branch, compose-button click, wait for the
compose window, field fill, error-marker inspection, success notification and
end screenshot. -/
def tryBody (env : Env) (recipient subject body : String) : M String :=
  andThen (step env (Action.takeScreenshot "compose_email_start")) (
  andThen (if pyIn "mail.google.com" env.pageUrl then mpure ()
           else step env (Action.goto gmailUrl)) (
  andThen (step env Action.checkSignInVisible) (
  andThen (if env.signInVisible then authSeq env else mpure ()) (
  andThen (step env Action.clickCompose) (
  andThen (step env Action.waitForNewMessage) (
  mbind (do_compose_email env recipient subject body) (fun result =>
    if pyIn "Error" result.summary_message then
      mthrow (Exn.generic result.detailed_message)
    else
      andThen (recordAction (Action.notifyUser result.summary_message MessageType.ACTION)) (
      andThen (step env (Action.takeScreenshot "compose_email_end")) (
      mpure result.summary_message)))))))))

/-- The skill entry point: the no-active-page precondition check, then the
`try` body with the timeout handler and the generic handler; each handler
notifies the user and re-raises a `ValueError` whose message it built. -/
def compose_email (env : Env) (recipient subject body : String) :
    Except String String × List Action :=
  if env.hasActivePage then
    match tryBody env recipient subject body with
    | (Except.ok m, tr) => (Except.ok m, tr)
    | (Except.error (Exn.timeout m), tr) =>
        (Except.error (timeoutWrap m),
         tr ++ [Action.notifyUser (timeoutWrap m) MessageType.ERROR])
    | (Except.error (Exn.generic m), tr) =>
        (Except.error (genericWrap m env.tracebackText),
         tr ++ [Action.notifyUser (genericWrap m env.tracebackText) MessageType.ERROR])
  else (Except.error noActivePageMsg, [])

/-! Basic computation lemmas. -/

theorem mbind_ok {α β : Type} (a : α) (tr : List Action) (f : α → M β) :
    mbind (Except.ok a, tr) f = ((f a).1, tr ++ (f a).2) := rfl

theorem mbind_err {α β : Type} (e : Exn) (tr : List Action) (f : α → M β) :
    mbind (Except.error e, tr) f = (Except.error e, tr) := rfl

theorem mtry_ok {α : Type} (a : α) (tr : List Action) (h : Exn → M α) :
    mtry (Except.ok a, tr) h = (Except.ok a, tr) := rfl

theorem mtry_err {α : Type} (e : Exn) (tr : List Action) (h : Exn → M α) :
    mtry (Except.error e, tr) h = ((h e).1, tr ++ (h e).2) := rfl

theorem step_ok {env : Env} {a : Action} (h : env.fail a = none) :
    step env a = (Except.ok (), [a]) := by
  simp [step, h]

theorem step_err {env : Env} {a : Action} {e : Exn} (h : env.fail a = some e) :
    step env a = (Except.error e, [a]) := by
  simp [step, h]

theorem ok_of_andThen {α : Type} {x : M Unit} {y : M α} {v : α}
    (h : (andThen x y).1 = Except.ok v) : y.1 = Except.ok v := by
  rcases x with ⟨res, tr⟩
  cases res with
  | ok a => simpa [andThen, mbind] using h
  | error e => simp [andThen, mbind] at h

theorem ok_of_mbind {α β : Type} {x : M α} {f : α → M β} {v : β}
    (h : (mbind x f).1 = Except.ok v) :
    ∃ u, x.1 = Except.ok u ∧ (f u).1 = Except.ok v := by
  rcases x with ⟨res, tr⟩
  cases res with
  | ok a => exact ⟨a, rfl, by simpa [mbind] using h⟩
  | error e => simp [mbind] at h

/-! Trace predicates: every action a computation performs satisfies `P`. -/

/-- Every action appearing in the trace of `m` satisfies `P`. -/
def TraceAll (P : Action → Prop) {α : Type} (m : M α) : Prop := ∀ a ∈ m.2, P a

theorem traceAll_mpure {P : Action → Prop} {α : Type} (a : α) :
    TraceAll P (mpure a) := by
  intro b hb
  simp [mpure] at hb

theorem traceAll_mthrow {P : Action → Prop} {α : Type} (e : Exn) :
    TraceAll P (mthrow e : M α) := by
  intro b hb
  simp [mthrow] at hb

theorem traceAll_step {P : Action → Prop} {env : Env} {a : Action} (h : P a) :
    TraceAll P (step env a) := by
  intro b hb
  cases hf : env.fail a <;> simp [step, hf] at hb <;> exact hb ▸ h

theorem traceAll_record {P : Action → Prop} {a : Action} (h : P a) :
    TraceAll P (recordAction a) := by
  intro b hb
  simp [recordAction] at hb
  exact hb ▸ h

theorem traceAll_mbind {P : Action → Prop} {α β : Type} {x : M α} {f : α → M β}
    (hx : TraceAll P x) (hf : ∀ u, TraceAll P (f u)) : TraceAll P (mbind x f) := by
  rcases x with ⟨res, tr⟩
  cases res with
  | ok a =>
      intro b hb
      rw [mbind_ok] at hb
      rcases List.mem_append.mp hb with h1 | h2
      · exact hx b h1
      · exact hf a b h2
  | error e =>
      intro b hb
      rw [mbind_err] at hb
      exact hx b hb

theorem traceAll_andThen {P : Action → Prop} {α : Type} {x : M Unit} {y : M α}
    (hx : TraceAll P x) (hy : TraceAll P y) : TraceAll P (andThen x y) :=
  traceAll_mbind hx (fun _ => hy)

theorem traceAll_mtry {P : Action → Prop} {α : Type} {x : M α} {h : Exn → M α}
    (hx : TraceAll P x) (hh : ∀ e, TraceAll P (h e)) : TraceAll P (mtry x h) := by
  rcases x with ⟨res, tr⟩
  cases res with
  | ok a =>
      intro b hb
      rw [mtry_ok] at hb
      exact hx b hb
  | error e =>
      intro b hb
      rw [mtry_err] at hb
      rcases List.mem_append.mp hb with h1 | h2
      · exact hx b h1
      · exact hh e b h2

/-! Substring lemmas for `pyIn`. -/

theorem strData_append (a b : String) : (a ++ b).data = a.data ++ b.data := rfl

theorem startsWith_self_append (n t : List Char) : startsWith n (n ++ t) = true := by
  induction n with
  | nil => rfl
  | cons c cs ih => simp [startsWith, ih]

theorem occursIn_of_startsWith {n h : List Char} (hs : startsWith n h = true) :
    occursIn n h = true := by
  cases h with
  | nil => simpa [occursIn] using hs
  | cons c rest => simp [occursIn, hs]

theorem occursIn_cons {n t : List Char} (c : Char) (ho : occursIn n t = true) :
    occursIn n (c :: t) = true := by
  simp [occursIn, ho]

theorem occursIn_append {n t : List Char} (p : List Char) (ho : occursIn n t = true) :
    occursIn n (p ++ t) = true := by
  induction p with
  | nil => simpa using ho
  | cons c cs ih => simpa using occursIn_cons c ih

theorem occursIn_mid (p n q : List Char) : occursIn n (p ++ (n ++ q)) = true :=
  occursIn_append p (occursIn_of_startsWith (startsWith_self_append n q))

theorem pyIn_of_data {n s : String} (p q : List Char)
    (hs : s.data = p ++ (n.data ++ q)) : pyIn n s = true := by
  unfold pyIn
  rw [hs]
  exact occursIn_mid p n.data q

/-! Action classifiers. -/

/-- Whether an action is one of the keystroke steps of the sequencer. -/
def isFillAction : Action → Bool
  | Action.typeText _ => true
  | Action.pressKey _ => true
  | _ => false

/-- Whether an action belongs to the sign-in UI sequence (click, fill or
key-press of the authentication branch). -/
def isAuthUIAction : Action → Bool
  | Action.clickSignIn => true
  | Action.fillEmailField _ => true
  | Action.clickNext => true
  | Action.waitForPasswordSelector => true
  | Action.clickPasswordField => true
  | Action.fillPasswordField _ => true
  | Action.pressEnterPassword => true
  | Action.waitForUrl _ => true
  | _ => false

/-- Whether an action is a type action of the sequencer. -/
def isTypeAction : Action → Bool
  | Action.typeText _ => true
  | _ => false

/-- Whether an action is a focus-advance (Tab key) action. -/
def isTabAction : Action → Bool
  | Action.pressKey k => k == "Tab"
  | _ => false

/-- The environment injects no failure into any non-keystroke interaction. -/
def nonFillOk (env : Env) : Prop :=
  ∀ a, isFillAction a = false → env.fail a = none

/-! Projection lemmas for sequencing. -/

theorem fst_andThen_of_ok {α : Type} {x : M Unit} (hx : x.1 = Except.ok ())
    (y : M α) : (andThen x y).1 = y.1 := by
  rcases x with ⟨res, tr⟩
  cases res with
  | ok a => rfl
  | error e => simp at hx

theorem fst_mbind_of_ok {α β : Type} {x : M α} {u : α} (hx : x.1 = Except.ok u)
    (f : α → M β) : (mbind x f).1 = (f u).1 := by
  rcases x with ⟨res, tr⟩
  cases res with
  | ok a =>
      have ha : a = u := by simpa using hx
      simp [mbind, ha]
  | error e => simp at hx

theorem fst_step_ok {env : Env} {a : Action} (h : env.fail a = none) :
    (step env a).1 = Except.ok () := by
  rw [step_ok h]

/-! Lemmas about the field-fill sequencer. -/

theorem fillBody_ok_eq {env : Env} {r s b : String} {o : OperationOutcome}
    (h : (fillBody env r s b).1 = Except.ok o) : o = successOutcome r s b := by
  unfold fillBody at h
  have h1 := ok_of_andThen h
  have h2 := ok_of_andThen h1
  have h3 := ok_of_andThen h2
  have h4 := ok_of_andThen h3
  have h5 := ok_of_andThen h4
  simp [mpure] at h5
  exact h5.symm

theorem fillBody_all_ok {env : Env} {r s b : String}
    (h1 : env.fail (Action.typeText r) = none)
    (h2 : env.fail (Action.pressKey "Tab") = none)
    (h3 : env.fail (Action.typeText s) = none)
    (h4 : env.fail (Action.typeText b) = none) :
    fillBody env r s b =
      (Except.ok (successOutcome r s b),
       [Action.typeText r, Action.pressKey "Tab", Action.typeText s,
        Action.pressKey "Tab", Action.typeText b]) := by
  unfold fillBody
  rw [step_ok h1, step_ok h2, step_ok h3, step_ok h4]
  rfl

theorem do_compose_fst (env : Env) (r s b : String) :
    (do_compose_email env r s b).1 = Except.ok (outcomeOf env r s b) := by
  unfold do_compose_email outcomeOf
  rcases hf : fillBody env r s b with ⟨res, tr⟩
  cases res with
  | error e => simp [mtry, mpure]
  | ok o => simp [mtry]

theorem traceAll_do_compose {P : Action → Prop} (env : Env) (r s b : String)
    (ht : ∀ t, P (Action.typeText t)) (hk : ∀ k, P (Action.pressKey k)) :
    TraceAll P (do_compose_email env r s b) := by
  unfold do_compose_email fillBody
  exact traceAll_mtry
    (traceAll_andThen (traceAll_step (ht r))
      (traceAll_andThen (traceAll_step (hk "Tab"))
        (traceAll_andThen (traceAll_step (ht s))
          (traceAll_andThen (traceAll_step (hk "Tab"))
            (traceAll_andThen (traceAll_step (ht b)) (traceAll_mpure _))))))
    (fun _ => traceAll_mpure _)

/-! Substring facts about the messages of the sequencer. -/

theorem errorSummary_data (r : String) :
    (errorSummary r).data =
      "Error".data ++ (" composing email for ".data ++ (r.data ++ ".".data)) := by
  show (("Error composing email for " ++ r) ++ ".").data = _
  rw [strData_append, strData_append]
  have h : "Error composing email for ".data =
      "Error".data ++ " composing email for ".data := by decide
  rw [h]
  simp [List.append_assoc]

theorem pyIn_error_errorSummary (r : String) : pyIn "Error" (errorSummary r) = true :=
  pyIn_of_data [] (" composing email for ".data ++ (r.data ++ ".".data))
    (by simpa using errorSummary_data r)

theorem pyIn_recipient_errorSummary (r : String) : pyIn r (errorSummary r) = true := by
  refine pyIn_of_data "Error composing email for ".data ".".data ?_
  show (("Error composing email for " ++ r) ++ ".").data = _
  rw [strData_append, strData_append]
  simp [List.append_assoc]

theorem pyIn_recipient_successMsg (r : String) : pyIn r (successMsg r) = true := by
  refine pyIn_of_data "Email composed successfully for ".data ".".data ?_
  show (("Email composed successfully for " ++ r) ++ ".").data = _
  rw [strData_append, strData_append]
  simp [List.append_assoc]

theorem pyIn_recipient_outcome (env : Env) (r s b : String) :
    pyIn r (outcomeOf env r s b).summary_message = true := by
  unfold outcomeOf
  rcases hf : (fillBody env r s b).1 with e | o
  · exact pyIn_recipient_errorSummary r
  · have ho := fillBody_ok_eq hf
    subst ho
    exact pyIn_recipient_successMsg r

theorem pyIn_detail_genericWrap (m tb : String) : pyIn m (genericWrap m tb) = true := by
  refine pyIn_of_data "Failed to compose email. Error: ".data ("\n".data ++ tb.data) ?_
  show ((("Failed to compose email. Error: " ++ m) ++ "\n") ++ tb).data = _
  rw [strData_append, strData_append, strData_append]
  simp [List.append_assoc]

/-! Run lemmas for the `try` body of the entry point. -/

theorem authSeq_fst_ok {env : Env} (hok : nonFillOk env)
    (he : pyTruthy env.emailVar = true) (hp : pyTruthy env.passwordVar = true) :
    (authSeq env).1 = Except.ok () := by
  unfold authSeq
  refine (fst_andThen_of_ok rfl _).trans ?_
  refine (fst_andThen_of_ok rfl _).trans ?_
  rw [he, hp]
  rw [if_neg (by simp)]
  refine (fst_andThen_of_ok (fst_step_ok (hok Action.clickSignIn rfl)) _).trans ?_
  refine (fst_andThen_of_ok
    (fst_step_ok (hok (Action.fillEmailField (optStr env.emailVar)) rfl)) _).trans ?_
  refine (fst_andThen_of_ok (fst_step_ok (hok Action.clickNext rfl)) _).trans ?_
  refine (fst_andThen_of_ok
    (fst_step_ok (hok Action.waitForPasswordSelector rfl)) _).trans ?_
  refine (fst_andThen_of_ok
    (fst_step_ok (hok Action.clickPasswordField rfl)) _).trans ?_
  refine (fst_andThen_of_ok
    (fst_step_ok (hok (Action.fillPasswordField (optStr env.passwordVar)) rfl)) _).trans ?_
  refine (fst_andThen_of_ok
    (fst_step_ok (hok Action.pressEnterPassword rfl)) _).trans ?_
  exact fst_step_ok (hok (Action.waitForUrl inboxUrl) rfl)

theorem tryBody_run {env : Env} (r s b : String) (hok : nonFillOk env)
    (hcred : env.signInVisible = true →
      pyTruthy env.emailVar = true ∧ pyTruthy env.passwordVar = true) :
    (pyIn "Error" (outcomeOf env r s b).summary_message = true ∧
      (tryBody env r s b).1 =
        Except.error (Exn.generic (outcomeOf env r s b).detailed_message)) ∨
    (pyIn "Error" (outcomeOf env r s b).summary_message = false ∧
      (tryBody env r s b).1 =
        Except.ok (outcomeOf env r s b).summary_message) := by
  have hnav : (if pyIn "mail.google.com" env.pageUrl then mpure ()
      else step env (Action.goto gmailUrl)).1 = Except.ok () := by
    cases hc : pyIn "mail.google.com" env.pageUrl
    · rw [if_neg (by simp)]
      exact fst_step_ok (hok (Action.goto gmailUrl) rfl)
    · rw [if_pos rfl]
      rfl
  have hauth : (if env.signInVisible then authSeq env else mpure ()).1 =
      Except.ok () := by
    cases hv : env.signInVisible
    · rw [if_neg (by simp)]
      rfl
    · rw [if_pos rfl]
      rcases hcred hv with ⟨he, hp⟩
      exact authSeq_fst_ok hok he hp
  have hfst : (tryBody env r s b).1 =
      ((if pyIn "Error" (outcomeOf env r s b).summary_message then
          mthrow (Exn.generic (outcomeOf env r s b).detailed_message)
        else
          andThen (recordAction (Action.notifyUser
              (outcomeOf env r s b).summary_message MessageType.ACTION)) (
          andThen (step env (Action.takeScreenshot "compose_email_end")) (
          mpure (outcomeOf env r s b).summary_message)) : M String)).1 := by
    unfold tryBody
    refine (fst_andThen_of_ok
      (fst_step_ok (hok (Action.takeScreenshot "compose_email_start") rfl)) _).trans ?_
    refine (fst_andThen_of_ok hnav _).trans ?_
    refine (fst_andThen_of_ok
      (fst_step_ok (hok Action.checkSignInVisible rfl)) _).trans ?_
    refine (fst_andThen_of_ok hauth _).trans ?_
    refine (fst_andThen_of_ok (fst_step_ok (hok Action.clickCompose rfl)) _).trans ?_
    refine (fst_andThen_of_ok (fst_step_ok (hok Action.waitForNewMessage rfl)) _).trans ?_
    exact fst_mbind_of_ok (do_compose_fst env r s b) _
  cases hmark : pyIn "Error" (outcomeOf env r s b).summary_message
  · right
    refine ⟨rfl, ?_⟩
    rw [hfst, if_neg (by simp [hmark])]
    refine (fst_andThen_of_ok rfl _).trans ?_
    refine (fst_andThen_of_ok
      (fst_step_ok (hok (Action.takeScreenshot "compose_email_end") rfl)) _).trans ?_
    rfl
  · left
    refine ⟨rfl, ?_⟩
    rw [hfst, if_pos hmark]
    rfl

theorem traceAll_tryBody_noAuth {P : Action → Prop} {env : Env} (r s b : String)
    (hvis : env.signInVisible = false)
    (h1 : ∀ l, P (Action.takeScreenshot l))
    (h2 : pyIn "mail.google.com" env.pageUrl = false → P (Action.goto gmailUrl))
    (h3 : P Action.checkSignInVisible)
    (h4 : P Action.clickCompose)
    (h5 : P Action.waitForNewMessage)
    (h6 : ∀ t, P (Action.typeText t))
    (h7 : ∀ k, P (Action.pressKey k))
    (h8 : ∀ m mt, P (Action.notifyUser m mt)) :
    TraceAll P (tryBody env r s b) := by
  unfold tryBody
  refine traceAll_andThen (traceAll_step (h1 _)) ?_
  refine traceAll_andThen ?_ ?_
  · cases hc : pyIn "mail.google.com" env.pageUrl
    · rw [if_neg (by simp)]
      exact traceAll_step (h2 hc)
    · rw [if_pos rfl]
      exact traceAll_mpure _
  refine traceAll_andThen (traceAll_step h3) ?_
  refine traceAll_andThen ?_ ?_
  · rw [hvis, if_neg (by simp)]
    exact traceAll_mpure _
  refine traceAll_andThen (traceAll_step h4) ?_
  refine traceAll_andThen (traceAll_step h5) ?_
  refine traceAll_mbind (traceAll_do_compose env r s b h6 h7) ?_
  intro u
  by_cases hm : pyIn "Error" u.summary_message = true
  · rw [if_pos hm]
    exact traceAll_mthrow _
  · rw [if_neg hm]
    exact traceAll_andThen (traceAll_record (h8 _ _))
      (traceAll_andThen (traceAll_step (h1 _)) (traceAll_mpure _))

theorem compose_trace_all {env : Env} {r s b : String} {P : Action → Prop}
    (htb : TraceAll P (tryBody env r s b))
    (hn : ∀ m mt, P (Action.notifyUser m mt)) :
    ∀ a ∈ (compose_email env r s b).2, P a := by
  intro a ha
  unfold compose_email at ha
  cases hap : env.hasActivePage
  · rw [hap] at ha
    simp at ha
  · rw [hap] at ha
    rw [if_pos rfl] at ha
    rcases ht : tryBody env r s b with ⟨res, tr⟩
    rw [ht] at ha
    have htr : ∀ x ∈ tr, P x := by
      intro x hx
      refine htb x ?_
      rw [ht]
      exact hx
    cases res with
    | ok m => exact htr a ha
    | error e =>
        cases e with
        | timeout m =>
            rcases List.mem_append.mp ha with h1 | h1
            · exact htr a h1
            · rw [List.mem_singleton.mp h1]
              exact hn _ _
        | generic m =>
            rcases List.mem_append.mp ha with h1 | h1
            · exact htr a h1
            · rw [List.mem_singleton.mp h1]
              exact hn _ _

/-! Membership lemmas for traces. -/

theorem outcomeOf_all_ok {env : Env} {r s b : String}
    (h1 : env.fail (Action.typeText r) = none)
    (h2 : env.fail (Action.pressKey "Tab") = none)
    (h3 : env.fail (Action.typeText s) = none)
    (h4 : env.fail (Action.typeText b) = none) :
    outcomeOf env r s b = successOutcome r s b := by
  unfold outcomeOf
  rw [fillBody_all_ok h1 h2 h3 h4]

theorem mem_snd_step (env : Env) (a : Action) : a ∈ (step env a).2 := by
  cases hf : env.fail a <;> simp [step, hf]

theorem mem_snd_andThen_left {α : Type} {x : M Unit} {y : M α} {a : Action}
    (h : a ∈ x.2) : a ∈ (andThen x y).2 := by
  rcases x with ⟨res, tr⟩
  cases res with
  | ok v => exact List.mem_append.mpr (Or.inl h)
  | error e => exact h

theorem mem_snd_andThen_right {α : Type} {x : M Unit} {y : M α} {a : Action}
    (hx : x.1 = Except.ok ()) (h : a ∈ y.2) : a ∈ (andThen x y).2 := by
  rcases x with ⟨res, tr⟩
  cases res with
  | ok v => exact List.mem_append.mpr (Or.inr h)
  | error e => simp at hx

theorem mem_compose_of_mem_tryBody {env : Env} {r s b : String} {a : Action}
    (hap : env.hasActivePage = true) (h : a ∈ (tryBody env r s b).2) :
    a ∈ (compose_email env r s b).2 := by
  unfold compose_email
  rw [hap, if_pos rfl]
  rcases ht : tryBody env r s b with ⟨res, tr⟩
  rw [ht] at h
  have htr : a ∈ tr := h
  cases res with
  | ok m => exact htr
  | error e =>
      cases e with
      | timeout m => exact List.mem_append.mpr (Or.inl htr)
      | generic m => exact List.mem_append.mpr (Or.inl htr)

/-! A trace lemma covering the authentication branch as well. -/

theorem traceAll_authSeq {P : Action → Prop} {env : Env}
    (hr : ∀ n, P (Action.readEnv n))
    (ha1 : P Action.clickSignIn)
    (ha2 : ∀ v, P (Action.fillEmailField v))
    (ha3 : P Action.clickNext)
    (ha4 : P Action.waitForPasswordSelector)
    (ha5 : P Action.clickPasswordField)
    (ha6 : ∀ v, P (Action.fillPasswordField v))
    (ha7 : P Action.pressEnterPassword)
    (ha8 : ∀ u, P (Action.waitForUrl u)) :
    TraceAll P (authSeq env) := by
  unfold authSeq
  refine traceAll_andThen (traceAll_record (hr _)) ?_
  refine traceAll_andThen (traceAll_record (hr _)) ?_
  by_cases hm : (!pyTruthy env.emailVar || !pyTruthy env.passwordVar) = true
  · rw [if_pos hm]
    exact traceAll_mthrow _
  · rw [if_neg hm]
    refine traceAll_andThen (traceAll_step ha1) ?_
    refine traceAll_andThen (traceAll_step (ha2 _)) ?_
    refine traceAll_andThen (traceAll_step ha3) ?_
    refine traceAll_andThen (traceAll_step ha4) ?_
    refine traceAll_andThen (traceAll_step ha5) ?_
    refine traceAll_andThen (traceAll_step (ha6 _)) ?_
    refine traceAll_andThen (traceAll_step ha7) ?_
    exact traceAll_step (ha8 _)

theorem traceAll_tryBody_full {P : Action → Prop} {env : Env} (r s b : String)
    (h1 : ∀ l, P (Action.takeScreenshot l))
    (h2 : pyIn "mail.google.com" env.pageUrl = false → P (Action.goto gmailUrl))
    (h3 : P Action.checkSignInVisible)
    (hr : ∀ n, P (Action.readEnv n))
    (ha1 : P Action.clickSignIn)
    (ha2 : ∀ v, P (Action.fillEmailField v))
    (ha3 : P Action.clickNext)
    (ha4 : P Action.waitForPasswordSelector)
    (ha5 : P Action.clickPasswordField)
    (ha6 : ∀ v, P (Action.fillPasswordField v))
    (ha7 : P Action.pressEnterPassword)
    (ha8 : ∀ u, P (Action.waitForUrl u))
    (h4 : P Action.clickCompose)
    (h5 : P Action.waitForNewMessage)
    (h6 : ∀ t, P (Action.typeText t))
    (h7 : ∀ k, P (Action.pressKey k))
    (h8 : ∀ m mt, P (Action.notifyUser m mt)) :
    TraceAll P (tryBody env r s b) := by
  unfold tryBody
  refine traceAll_andThen (traceAll_step (h1 _)) ?_
  refine traceAll_andThen ?_ ?_
  · cases hc : pyIn "mail.google.com" env.pageUrl
    · rw [if_neg (by simp)]
      exact traceAll_step (h2 hc)
    · rw [if_pos rfl]
      exact traceAll_mpure _
  refine traceAll_andThen (traceAll_step h3) ?_
  refine traceAll_andThen ?_ ?_
  · cases hv : env.signInVisible
    · rw [if_neg (by simp)]
      exact traceAll_mpure _
    · rw [if_pos rfl]
      exact traceAll_authSeq hr ha1 ha2 ha3 ha4 ha5 ha6 ha7 ha8
  refine traceAll_andThen (traceAll_step h4) ?_
  refine traceAll_andThen (traceAll_step h5) ?_
  refine traceAll_mbind (traceAll_do_compose env r s b h6 h7) ?_
  intro u
  by_cases hm : pyIn "Error" u.summary_message = true
  · rw [if_pos hm]
    exact traceAll_mthrow _
  · rw [if_neg hm]
    exact traceAll_andThen (traceAll_record (h8 _ _))
      (traceAll_andThen (traceAll_step (h1 _)) (traceAll_mpure _))

/-! Extraction of a successful return. -/

theorem compose_ok_contains_recipient (env : Env) (r s b m : String)
    (h : (compose_email env r s b).1 = Except.ok m) : pyIn r m = true := by
  unfold compose_email at h
  cases hap : env.hasActivePage
  · rw [hap] at h
    simp at h
  · rw [hap, if_pos rfl] at h
    rcases ht : tryBody env r s b with ⟨res, tr⟩
    rw [ht] at h
    cases res with
    | error e => cases e <;> simp at h
    | ok m2 =>
        have hm2 : m2 = m := by simpa using h
        subst hm2
        have htb : (tryBody env r s b).1 = Except.ok m2 := by rw [ht]
        unfold tryBody at htb
        have htb := ok_of_andThen htb
        have htb := ok_of_andThen htb
        have htb := ok_of_andThen htb
        have htb := ok_of_andThen htb
        have htb := ok_of_andThen htb
        have htb := ok_of_andThen htb
        rcases ok_of_mbind htb with ⟨u, hdo, hf⟩
        have hdo2 := do_compose_fst env r s b
        rw [hdo] at hdo2
        have hu : u = outcomeOf env r s b := by simpa using hdo2
        have hf2 : ((if pyIn "Error" u.summary_message then
            mthrow (Exn.generic u.detailed_message)
          else
            andThen (recordAction (Action.notifyUser u.summary_message MessageType.ACTION)) (
            andThen (step env (Action.takeScreenshot "compose_email_end")) (
            mpure u.summary_message)) : M String)).1 = Except.ok m2 := hf
        by_cases hmark : pyIn "Error" u.summary_message = true
        · rw [if_pos hmark] at hf2
          simp [mthrow] at hf2
        · rw [if_neg hmark] at hf2
          have hf2 := ok_of_andThen hf2
          have hf2 := ok_of_andThen hf2
          have hsum : u.summary_message = m2 := by simpa [mpure] using hf2
          rw [← hsum, hu]
          exact pyIn_recipient_outcome env r s b

deriving instance DecidableEq for Except

/-! Concrete environments used by witnesses and counterexamples. -/

/-- A world with an active page, no sign-in affordance, and no failing
interaction. -/
def envAllOk : Env :=
  Env.mk true "about:blank" false none none (fun _ => none) "traceback"

/-- A world with no active page. -/
def envNoPage : Env :=
  Env.mk false "about:blank" false none none (fun _ => none) "traceback"

/-- A world where typing the recipient `a@b.com` raises a generic error and
everything else succeeds. -/
def envTypeFail : Env :=
  Env.mk true "about:blank" false none none
    (fun a => if a = Action.typeText "a@b.com" then some (Exn.generic "boom") else none)
    "traceback"

/-- A world already on the target application where clicking Compose times
out. -/
def envComposeTimeout : Env :=
  Env.mk true "https://mail.google.com/mail/u/0/" false none none
    (fun a => if a = Action.clickCompose then some (Exn.timeout "waiting") else none)
    "traceback"

/-- A world with the sign-in affordance visible and no credentials set. -/
def envNoCreds : Env :=
  Env.mk true "about:blank" true none none (fun _ => none) "traceback"

/-! Claim theorems. -/

/-- C7: if no active session is obtainable, `compose_email` always raises the
precondition error immediately and its trace is empty: no navigation, no
screenshot, no browser interaction of any kind. -/
theorem c7_no_active_page (env : Env) (r s b : String)
    (h : env.hasActivePage = false) :
    (compose_email env r s b).1 = Except.error noActivePageMsg ∧
    (compose_email env r s b).2 = [] := by
  unfold compose_email
  rw [h]
  simp

/-- C7 witness: the precondition failure observed at a concrete input. -/
theorem c7_witness :
    (compose_email envNoPage "a@b.com" "Hi" "Hello").1 = Except.error noActivePageMsg ∧
    (compose_email envNoPage "a@b.com" "Hi" "Hello").2 = [] :=
  c7_no_active_page envNoPage "a@b.com" "Hi" "Hello" rfl

/-- C2 counterexample: the no-active-page failure is raised while the trace
is empty, so no notification was emitted before raising — the claim that
every failure is dual-channel reported fails on the precondition path. -/
theorem c2_counterexample :
    (compose_email envNoPage "a@b.com" "Hi" "Hello").1 = Except.error noActivePageMsg ∧
    (∀ m mt, Action.notifyUser m mt ∉ (compose_email envNoPage "a@b.com" "Hi" "Hello").2) := by
  constructor
  · rfl
  · intro m mt hmem
    have h : (compose_email envNoPage "a@b.com" "Hi" "Hello").2 = [] := rfl
    rw [h] at hmem
    simp at hmem

/-- C2 (amended): every failure raised from within the workflow body — that
is, on any invocation that passes the active-page precondition — is reported
through the notification channel with severity ERROR before being raised,
carrying the raised message; only the no-active-page precondition failure
raises without a notification. -/
theorem c2_failures_notified (env : Env) (r s b : String) (e : String)
    (hap : env.hasActivePage = true)
    (he : (compose_email env r s b).1 = Except.error e) :
    Action.notifyUser e MessageType.ERROR ∈ (compose_email env r s b).2 := by
  unfold compose_email at he ⊢
  rw [hap, if_pos rfl] at he ⊢
  rcases ht : tryBody env r s b with ⟨res, tr⟩
  rw [ht] at he
  cases res with
  | ok m => simp at he
  | error ex =>
      cases ex with
      | timeout m =>
          have hm : timeoutWrap m = e := by simpa using he
          subst hm
          exact List.mem_append.mpr (Or.inr (by simp))
      | generic m =>
          have hm : genericWrap m env.tracebackText = e := by simpa using he
          subst hm
          exact List.mem_append.mpr (Or.inr (by simp))

/-- C2 witness: a timeout failure at the Compose click is both notified and
raised. -/
theorem c2_witness :
    Action.notifyUser (timeoutWrap "waiting") MessageType.ERROR ∈
      (compose_email envComposeTimeout "a@b.com" "Hi" "Hello").2 :=
  c2_failures_notified envComposeTimeout "a@b.com" "Hi" "Hello"
    (timeoutWrap "waiting") rfl (by decide)

/-- C3: the Field-Fill Sequencer never propagates an exception — its result
is always an `ok` outcome — and whenever a typing step raised, the returned
summary contains the error marker and names the recipient. -/
theorem c3_sequencer_never_raises (env : Env) (r s b : String) :
    ∃ o : OperationOutcome, (do_compose_email env r s b).1 = Except.ok o ∧
      (∀ e, (fillBody env r s b).1 = Except.error e →
        pyIn "Error" o.summary_message = true ∧ pyIn r o.summary_message = true) := by
  refine ⟨outcomeOf env r s b, do_compose_fst env r s b, ?_⟩
  intro e hf
  unfold outcomeOf
  rw [hf]
  exact ⟨pyIn_error_errorSummary r, pyIn_recipient_errorSummary r⟩

/-- C4 counterexample: when typing the recipient raises, the trace of the
sequencer is a single type action — not three type actions and two focus
advances. -/
theorem c4_counterexample :
    (do_compose_email envTypeFail "a@b.com" "Hi" "Hello").2 =
      [Action.typeText "a@b.com"] ∧
    ¬((((do_compose_email envTypeFail "a@b.com" "Hi" "Hello").2.filter
          isTypeAction).length = 3) ∧
      (((do_compose_email envTypeFail "a@b.com" "Hi" "Hello").2.filter
          isTabAction).length = 2)) := by
  decide

/-- C4 (amended): provided no fill step raises, the sequencer performs
exactly the action sequence type recipient, Tab, type subject, Tab, type
body — three type actions and two focus advances in that order, with no
focus advance after the body. -/
theorem c4_fill_sequence (env : Env) (r s b : String)
    (h1 : env.fail (Action.typeText r) = none)
    (h2 : env.fail (Action.pressKey "Tab") = none)
    (h3 : env.fail (Action.typeText s) = none)
    (h4 : env.fail (Action.typeText b) = none) :
    (do_compose_email env r s b).2 =
      [Action.typeText r, Action.pressKey "Tab", Action.typeText s,
       Action.pressKey "Tab", Action.typeText b] := by
  unfold do_compose_email
  rw [fillBody_all_ok h1 h2 h3 h4]
  rfl

/-- C4 witness: the exact fill sequence on a concrete failure-free input. -/
theorem c4_witness :
    (do_compose_email envAllOk "a@b.com" "Hi" "Hello").2 =
      [Action.typeText "a@b.com", Action.pressKey "Tab", Action.typeText "Hi",
       Action.pressKey "Tab", Action.typeText "Hello"] :=
  c4_fill_sequence envAllOk "a@b.com" "Hi" "Hello" rfl rfl rfl rfl

set_option maxRecDepth 4000 in
/-- C10: the entry point tests for the substring `"Error"` in the outcome
summary; with recipient `Error@x.com` every fill step succeeds and the
sequencer returns its success outcome, whose summary nevertheless contains
the marker, so the invocation raises instead of returning success. -/
theorem c10_error_recipient_escalated :
    (do_compose_email envAllOk "Error@x.com" "Hi" "Hello").1 =
      Except.ok (successOutcome "Error@x.com" "Hi" "Hello") ∧
    pyIn "Error" (successOutcome "Error@x.com" "Hi" "Hello").summary_message = true ∧
    (∃ e, (compose_email envAllOk "Error@x.com" "Hi" "Hello").1 = Except.error e) ∧
    (compose_email envAllOk "Error@x.com" "Hi" "Hello").1 ≠
      Except.ok (successOutcome "Error@x.com" "Hi" "Hello").summary_message := by
  refine ⟨by decide, by decide, ⟨genericWrap (successOutcome "Error@x.com" "Hi"
    "Hello").detailed_message "traceback", by decide⟩, by decide⟩

/-- C1: the entry point produces exclusively a raise (never also a return),
and when the sequencer outcome summary contains the error marker on a run
whose entry-point interactions succeed, the entry point raises a failure
whose message carries the detailed message instead of returning. -/
theorem c1_escalation (env : Env) (r s b : String)
    (hap : env.hasActivePage = true)
    (hok : nonFillOk env)
    (hcred : env.signInVisible = true →
      pyTruthy env.emailVar = true ∧ pyTruthy env.passwordVar = true)
    (hmark : pyIn "Error" (outcomeOf env r s b).summary_message = true) :
    ∃ e, (compose_email env r s b).1 = Except.error e ∧
      pyIn (outcomeOf env r s b).detailed_message e = true ∧
      ∀ m, (compose_email env r s b).1 ≠ Except.ok m := by
  rcases tryBody_run r s b hok hcred with ⟨_, htb⟩ | ⟨hm, _⟩
  · have hc : (compose_email env r s b).1 =
        Except.error (genericWrap (outcomeOf env r s b).detailed_message
          env.tracebackText) := by
      unfold compose_email
      rw [hap, if_pos rfl]
      rcases ht : tryBody env r s b with ⟨res, tr⟩
      rw [ht] at htb
      have hres : res =
          Except.error (Exn.generic (outcomeOf env r s b).detailed_message) := htb
      subst hres
      rfl
    refine ⟨_, hc, pyIn_detail_genericWrap _ _, ?_⟩
    intro m hm2
    rw [hc] at hm2
    exact Except.noConfusion hm2
  · rw [hmark] at hm
    exact absurd hm (by simp)

/-- C1 witness: a failing recipient-typing step yields an error-marked
outcome, which the entry point escalates to a raise carrying the detail. -/
theorem c1_witness :
    ∃ e, (compose_email envTypeFail "a@b.com" "Hi" "Hello").1 = Except.error e ∧
      pyIn (outcomeOf envTypeFail "a@b.com" "Hi" "Hello").detailed_message e = true ∧
      ∀ m, (compose_email envTypeFail "a@b.com" "Hi" "Hello").1 ≠ Except.ok m :=
  c1_escalation envTypeFail "a@b.com" "Hi" "Hello" rfl
    (by intro a h; cases a <;> first | rfl | exact absurd h (by simp [isFillAction]))
    (by intro h; exact absurd h (by decide))
    (by decide)

/-- C5: with the sign-in affordance visible and a credential absent, once the
pre-branch interactions succeed the invocation raises an error carrying the
configuration message, and its trace contains no click, fill or key-press of
the sign-in sequence. -/
theorem c5_config_error_before_auth (env : Env) (r s b : String)
    (hap : env.hasActivePage = true)
    (hvis : env.signInVisible = true)
    (hmiss : env.emailVar = none ∨ env.passwordVar = none)
    (h1 : env.fail (Action.takeScreenshot "compose_email_start") = none)
    (h2 : env.fail (Action.goto gmailUrl) = none)
    (h3 : env.fail Action.checkSignInVisible = none) :
    ∃ e, (compose_email env r s b).1 = Except.error e ∧
      pyIn credsMissingMsg e = true ∧
      ∀ a ∈ (compose_email env r s b).2, isAuthUIAction a = false := by
  have hauth : authSeq env =
      (Except.error (Exn.generic credsMissingMsg),
       [Action.readEnv "EMAIL", Action.readEnv "PASSWORD"]) := by
    unfold authSeq
    have hcond : (!pyTruthy env.emailVar || !pyTruthy env.passwordVar) = true := by
      rcases hmiss with h | h <;> simp [h, pyTruthy]
    rw [if_pos hcond]
    rfl
  cases hc : pyIn "mail.google.com" env.pageUrl
  · have htb : tryBody env r s b =
        (Except.error (Exn.generic credsMissingMsg),
         [Action.takeScreenshot "compose_email_start", Action.goto gmailUrl,
          Action.checkSignInVisible, Action.readEnv "EMAIL",
          Action.readEnv "PASSWORD"]) := by
      unfold tryBody
      have hnneg : ¬ (pyIn "mail.google.com" env.pageUrl = true) := by simp [hc]
      rw [step_ok h1, if_neg hnneg, step_ok h2, step_ok h3, if_pos hvis, hauth]
      rfl
    unfold compose_email
    rw [hap, if_pos rfl, htb]
    refine ⟨genericWrap credsMissingMsg env.tracebackText, rfl,
      pyIn_detail_genericWrap _ _, ?_⟩
    intro a ha
    simp only [List.mem_append, List.mem_cons, List.not_mem_nil, or_false] at ha
    rcases ha with (h | h | h | h | h) | h <;> subst h <;> rfl
  · have htb : tryBody env r s b =
        (Except.error (Exn.generic credsMissingMsg),
         [Action.takeScreenshot "compose_email_start", Action.checkSignInVisible,
          Action.readEnv "EMAIL", Action.readEnv "PASSWORD"]) := by
      unfold tryBody
      rw [step_ok h1, if_pos hc, step_ok h3, if_pos hvis, hauth]
      rfl
    unfold compose_email
    rw [hap, if_pos rfl, htb]
    refine ⟨genericWrap credsMissingMsg env.tracebackText, rfl,
      pyIn_detail_genericWrap _ _, ?_⟩
    intro a ha
    simp only [List.mem_append, List.mem_cons, List.not_mem_nil, or_false] at ha
    rcases ha with (h | h | h | h) | h <;> subst h <;> rfl

/-- C5 witness: the configuration failure observed at a concrete input with
visible sign-in affordance and unset credentials. -/
theorem c5_witness :
    ∃ e, (compose_email envNoCreds "a@b.com" "Hi" "Hello").1 = Except.error e ∧
      pyIn credsMissingMsg e = true ∧
      ∀ a ∈ (compose_email envNoCreds "a@b.com" "Hi" "Hello").2,
        isAuthUIAction a = false :=
  c5_config_error_before_auth envNoCreds "a@b.com" "Hi" "Hello" rfl rfl
    (Or.inl rfl) rfl rfl rfl

/-- C6: when the sign-in affordance is not visible, no credential read occurs
in the trace, and the entire observable behavior of the invocation (result and
trace) is identical under any two credential environments. -/
theorem c6_no_credential_reads (p : Bool) (u : String) (e1 p1 e2 p2 : Option String)
    (f : Action → Option Exn) (tb r s b : String) :
    (∀ n, Action.readEnv n ∉ (compose_email (Env.mk p u false e1 p1 f tb) r s b).2) ∧
    compose_email (Env.mk p u false e1 p1 f tb) r s b =
      compose_email (Env.mk p u false e2 p2 f tb) r s b := by
  constructor
  · intro n hn
    have hall : ∀ a ∈ (compose_email (Env.mk p u false e1 p1 f tb) r s b).2,
        (∀ x, a ≠ Action.readEnv x) := by
      refine compose_trace_all ?_ ?_
      · refine traceAll_tryBody_noAuth r s b rfl ?_ ?_ ?_ ?_ ?_ ?_ ?_ ?_
        · intro l x hx
          simp at hx
        · intro _ x hx
          simp at hx
        · intro x hx
          simp at hx
        · intro x hx
          simp at hx
        · intro x hx
          simp at hx
        · intro t x hx
          simp at hx
        · intro k x hx
          simp at hx
        · intro m mt x hx
          simp at hx
      · intro m mt x hx
        simp at hx
    exact hall _ hn n rfl
  · exact rfl

/-- C8: with an active page and a successful start screenshot, the navigation
action to the target application occurs exactly when the current page
location does not already contain the target host. -/
theorem c8_navigates_iff (env : Env) (r s b : String)
    (hap : env.hasActivePage = true)
    (hss : env.fail (Action.takeScreenshot "compose_email_start") = none) :
    Action.goto gmailUrl ∈ (compose_email env r s b).2 ↔
      pyIn "mail.google.com" env.pageUrl = false := by
  constructor
  · intro hmem
    cases hc : pyIn "mail.google.com" env.pageUrl
    · rfl
    · exfalso
      have hall : ∀ a ∈ (compose_email env r s b).2, a ≠ Action.goto gmailUrl := by
        refine compose_trace_all ?_ ?_
        · refine traceAll_tryBody_full r s b ?_ ?_ ?_ ?_ ?_ ?_ ?_ ?_ ?_ ?_ ?_ ?_
            ?_ ?_ ?_ ?_ ?_
          · intro l hx
            simp at hx
          · intro hfalse
            rw [hc] at hfalse
            exact absurd hfalse (by simp)
          · intro hx
            simp at hx
          · intro x hx
            simp at hx
          · intro hx
            simp at hx
          · intro v hx
            simp at hx
          · intro hx
            simp at hx
          · intro hx
            simp at hx
          · intro hx
            simp at hx
          · intro v hx
            simp at hx
          · intro hx
            simp at hx
          · intro x hx
            simp at hx
          · intro hx
            simp at hx
          · intro hx
            simp at hx
          · intro t hx
            simp at hx
          · intro k hx
            simp at hx
          · intro m mt hx
            simp at hx
        · intro m mt hx
          simp at hx
      exact hall _ hmem rfl
  · intro hc
    refine mem_compose_of_mem_tryBody hap ?_
    unfold tryBody
    refine mem_snd_andThen_right (fst_step_ok hss) ?_
    refine mem_snd_andThen_left ?_
    rw [if_neg (by simp [hc])]
    exact mem_snd_step env _

/-- C8 witness: on a blank page the navigation occurs, and the equivalence
holds at this concrete input. -/
theorem c8_witness :
    Action.goto gmailUrl ∈ (compose_email envAllOk "a@b.com" "Hi" "Hello").2 ↔
      pyIn "mail.google.com" envAllOk.pageUrl = false :=
  c8_navigates_iff envAllOk "a@b.com" "Hi" "Hello" rfl rfl

/-- C9: with no sign-in affordance and failure-free interactions, the
scenario recipient `a@b.com`, subject `Hi`, body `Hello there` returns
exactly the success string, the trace contains no authentication step, and
in general every successful return contains the recipient address. -/
theorem c9_success_scenario (env : Env)
    (hap : env.hasActivePage = true)
    (hvis : env.signInVisible = false)
    (hok : ∀ a, env.fail a = none) :
    (compose_email env "a@b.com" "Hi" "Hello there").1 =
      Except.ok "Email composed successfully for a@b.com." ∧
    (∀ a ∈ (compose_email env "a@b.com" "Hi" "Hello there").2,
      isAuthUIAction a = false) ∧
    (∀ env2 r s b m, (compose_email env2 r s b).1 = Except.ok m →
      pyIn r m = true) := by
  have hnf : nonFillOk env := fun a _ => hok a
  have hcred : env.signInVisible = true →
      pyTruthy env.emailVar = true ∧ pyTruthy env.passwordVar = true := by
    intro h
    rw [hvis] at h
    exact absurd h (by simp)
  have hout : outcomeOf env "a@b.com" "Hi" "Hello there" =
      successOutcome "a@b.com" "Hi" "Hello there" :=
    outcomeOf_all_ok (hok _) (hok _) (hok _) (hok _)
  refine ⟨?_, ?_, ?_⟩
  · rcases tryBody_run "a@b.com" "Hi" "Hello there" hnf hcred with ⟨hm, _⟩ | ⟨_, htb⟩
    · rw [hout] at hm
      exact absurd hm (by decide)
    · rw [hout] at htb
      unfold compose_email
      rw [hap, if_pos rfl]
      rcases ht : tryBody env "a@b.com" "Hi" "Hello there" with ⟨res, tr⟩
      rw [ht] at htb
      have hres : res = Except.ok
          (successOutcome "a@b.com" "Hi" "Hello there").summary_message := htb
      subst hres
      rfl
  · have htb2 : TraceAll (fun a2 => isAuthUIAction a2 = false)
        (tryBody env "a@b.com" "Hi" "Hello there") :=
      traceAll_tryBody_noAuth _ _ _ hvis (fun l => rfl) (fun _ => rfl) rfl rfl
        rfl (fun t => rfl) (fun k => rfl) (fun m mt => rfl)
    exact fun a ha => compose_trace_all htb2 (fun m mt => rfl) a ha
  · intro env2 r2 s2 b2 m hm
    exact compose_ok_contains_recipient env2 r2 s2 b2 m hm

/-- C9 witness: the scenario at a fully concrete failure-free world. -/
theorem c9_witness :
    (compose_email envAllOk "a@b.com" "Hi" "Hello there").1 =
      Except.ok "Email composed successfully for a@b.com." ∧
    (∀ a ∈ (compose_email envAllOk "a@b.com" "Hi" "Hello there").2,
      isAuthUIAction a = false) ∧
    (∀ env2 r s b m, (compose_email env2 r s b).1 = Except.ok m →
      pyIn r m = true) :=
  c9_success_scenario envAllOk rfl rfl (fun _ => rfl)

end ComposeEmail
